import Mathlib

/-!
# Verification of the Vanna client library (`src/vanna/__init__.py`)

A shallow embedding of the Vanna Python client: the process-global session
state, the two JSON-RPC transports, the RPC-backed operations, the `ask`
pipeline, and the database connector helpers.  Network, file and driver
effects are passed in explicitly as function-valued environments ("oracles"),
so every definition is executable on concrete inputs.

Python exceptions are modelled with `Except`; `None`-able values with
`Option`.  The typed request/response records live in the repository's
`types` module, which is not part of the provided source; following the
spec they are modelled as plain data records mapped one-to-one onto RPC
parameters and results.
-/

namespace Vanna

/-- JSON values, modelling Python dicts/lists as produced by `json.dumps`
and `response.json()`.  Object fields keep their insertion order. -/
inductive Json where
  | null
  | bool (b : Bool)
  | num (n : Int)
  | str (s : String)
  | arr (elts : List Json)
  | obj (fields : List (String × Json))
  deriving Repr

/-- Field lookup in an object's field list (first match wins). -/
def lookupField : List (String × Json) → String → Option Json
  | [], _ => none
  | (k', v) :: rest, k => if k' = k then some v else lookupField rest k

/-- `'key' in d` / `d['key']` on a decoded JSON response.  A non-object
response never has a `result` key for the purposes of this model. -/
def jsonLookup (j : Json) (k : String) : Option Json :=
  match j with
  | .obj fields => lookupField fields k
  | _ => none

/-- Modelled from the spec: the exception classes of the repository's
`exceptions` module (not under the provided source).  Each carries its
message.  `driverError` stands for a database driver's own exception type,
`raisedList` for the bigquery closure's `raise errors` where `errors` is a
list of message strings, and `typeError`/`attributeError` for the Python
builtin exceptions that arise from calling a constructor with unexpected
keys or a method on `None`. -/
inductive PyError where
  | improperlyConfigured (msg : String)
  | connectionError (msg : String)
  | validationError (msg : String)
  | dependencyError (msg : String)
  | sqlRemoveError (msg : String)
  | typeError (msg : String)
  | attributeError (msg : String)
  | driverError (msg : String)
  | raisedList (msgs : List String)
  deriving DecidableEq, Repr

/-- Rows of a pandas DataFrame, abstracted to lists of cell strings; only
its length (`len(df)`) and identity are observable to the claims. -/
abbrev Df := List (List String)

/-- A Plotly figure handle (the object built by `exec`-ing generated code). -/
structure Fig where
  fig_id : Nat
  deriving DecidableEq, Repr

/-- The injected `run_sql` global: which closure is installed and over which
driver connection handle.  `custom` stands for a user-supplied function. -/
inductive RunSqlFn where
  | snowflake (conn : Nat) (role : Option String) (database : String)
  | bigquery (conn : Option Nat)
  | postgres (conn : Option Nat)
  | custom (id : Nat)
  deriving DecidableEq, Repr

/-- The process-wide mutable session state: `api_key`, `__org` (the active
dataset/organization name) and the injectable `run_sql` function. -/
structure GlobalState where
  api_key : Option String
  org : Option String
  run_sql : Option RunSqlFn
  deriving DecidableEq, Repr

/-! ## RPC parameter records and serialization -/

/-- Modelled from the spec: the typed request records of the `types` module
(plain data records mapped one-to-one onto RPC parameters), restricted to
the constructors the operations below build.  Fields that the source can
populate with `None` are `Option`-typed.  `sqlAnswer`'s `pre_text` and
`post_text` model the record's prefix and postfix fields. -/
inductive Param where
  | question (question : String)
  | questionSQLPair (question : Option String) (sql : Option String) (tag : Option String)
  | stringData (data : Option String)
  | newOrganization (org_name : String) (db_type : String)
  | dataResult (question : Option String) (sql : Option String)
      (table_markdown : String) (error : Option String) (correction_attempts : Nat)
  | sqlAnswer (raw_answer : String) (pre_text : String) (post_text : String)
      (sql : Option String)
  deriving DecidableEq, Repr

/-- `None` becomes JSON `null`, a string becomes a JSON string. -/
def jsonOfOptStr : Option String → Json
  | none => Json.null
  | some s => Json.str s

/-- `__dataclass_to_dict`: `dataclasses.asdict(obj)`, on each record shape. -/
def dataclass_to_dict : Param → Json
  | .question q => .obj [("question", .str q)]
  | .questionSQLPair q s t =>
      .obj [("question", jsonOfOptStr q), ("sql", jsonOfOptStr s), ("tag", jsonOfOptStr t)]
  | .stringData d => .obj [("data", jsonOfOptStr d)]
  | .newOrganization n t => .obj [("org_name", .str n), ("db_type", .str t)]
  | .dataResult q s tm e ca =>
      .obj [("question", jsonOfOptStr q), ("sql", jsonOfOptStr s),
            ("table_markdown", .str tm), ("error", jsonOfOptStr e),
            ("correction_attempts", .num ca)]
  | .sqlAnswer r a b s =>
      .obj [("raw_answer", .str r), ("prefix", .str a), ("postfix", .str b),
            ("sql", jsonOfOptStr s)]

/-! ## The two JSON-RPC transports -/

/-- An HTTP POST as issued by `requests.post(url, headers=..., data=json.dumps(data))`. -/
structure HttpRequest where
  url : String
  headers : List (String × String)
  body : Json
  deriving Repr

def endpoint : String := "https://ask.vanna.ai/rpc"

def unauthenticated_endpoint : String := "https://ask.vanna.ai/unauthenticated_rpc"

/-- The request body both transports build:
`{"method": method, "params": [__dataclass_to_dict(obj) for obj in params]}`. -/
def rpcBody (method : String) (params : List Param) : Json :=
  .obj [("method", .str method), ("params", .arr (params.map dataclass_to_dict))]

/-- A network oracle: the decoded JSON (`response.json()`) the remote
service answers to a given request. -/
abbrev Net := HttpRequest → Json

/-- `__unauthenticated_rpc_call(method, params)`.  Returns the list of
requests sent (always exactly one) and the decoded response. -/
def unauthenticated_rpc_call (net : Net) (method : String) (params : List Param) :
    List HttpRequest × Json :=
  let req : HttpRequest :=
    { url := unauthenticated_endpoint
      headers := [("Content-Type", "application/json")]
      body := rpcBody method params }
  ([req], net req)

def apiKeyNotSetMsg : String :=
  "API key not set. Use vn.get_api_key(...) to get an API key."

def datasetNotSetMsg : String :=
  "Dataset not set. Use vn.set_dataset(...) to set the dataset to use."

/-- `__rpc_call(method, params)`: checks `api_key` and `__org` before any
request is sent, then POSTs the body to the authenticated endpoint with the
credential headers.  Returns the requests sent (empty on the error paths)
and either the raised exception or the decoded response. -/
def rpc_call (st : GlobalState) (net : Net) (method : String) (params : List Param) :
    List HttpRequest × Except PyError Json :=
  match st.api_key with
  | none => ([], .error (.improperlyConfigured apiKeyNotSetMsg))
  | some key =>
    if st.org = none ∧ method ≠ "list_orgs" then
      ([], .error (.improperlyConfigured datasetNotSetMsg))
    else
      let headers :=
        if method ≠ "list_orgs" then
          [("Content-Type", "application/json"), ("Vanna-Key", key),
           ("Vanna-Org", st.org.getD "")]
        else
          [("Content-Type", "application/json"), ("Vanna-Key", key),
           ("Vanna-Org", "demo-tpc-h")]
      let req : HttpRequest := { url := endpoint, headers := headers, body := rpcBody method params }
      ([req], .ok (net req))

/-! ## Typed response records and their decoders

Modelled from the spec: the response records of the `types` module are plain
data records; deserialization `Record(**d['result'])` succeeds exactly when
the response object carries the record's keyword fields (at their declared
types), and otherwise raises a `TypeError`. -/

structure Status where
  success : Bool
  message : String
  deriving DecidableEq, Repr

def Status.ofJson? : Json → Option Status
  | .obj [("success", .bool b), ("message", .str m)] => some ⟨b, m⟩
  | _ => none

/-- `pre_text`/`post_text` model the record's prefix/postfix fields. -/
structure SQLAnswer where
  raw_answer : String
  pre_text : String
  post_text : String
  sql : String
  deriving DecidableEq, Repr

def SQLAnswer.ofJson? : Json → Option SQLAnswer
  | .obj [("raw_answer", .str r), ("prefix", .str a), ("postfix", .str b), ("sql", .str s)] =>
      some ⟨r, a, b, s⟩
  | _ => none

structure OrganizationList where
  organizations : List String
  deriving DecidableEq, Repr

/-- Decode a JSON array of strings. -/
def strList? : Json → Option (List String)
  | .arr xs => xs.mapM fun j => match j with | .str s => some s | _ => none
  | _ => none

def OrganizationList.ofJson? : Json → Option OrganizationList
  | .obj [("organizations", j)] => (strList? j).map OrganizationList.mk
  | _ => none

structure PlotlyResult where
  plotly_code : String
  deriving DecidableEq, Repr

def PlotlyResult.ofJson? : Json → Option PlotlyResult
  | .obj [("plotly_code", .str c)] => some ⟨c⟩
  | _ => none

structure QuestionRec where
  question : String
  deriving DecidableEq, Repr

def QuestionRec.ofJson? : Json → Option QuestionRec
  | .obj [("question", .str q)] => some ⟨q⟩
  | _ => none

structure QuestionStringList where
  questions : List String
  deriving DecidableEq, Repr

def QuestionStringList.ofJson? : Json → Option QuestionStringList
  | .obj [("questions", j)] => (strList? j).map QuestionStringList.mk
  | _ => none

/-! ## RPC-backed operations

Each operation returns the list of HTTP requests it sent together with the
Python outcome (`Except` for a raised exception). -/

/-- `get_datasets()`: `list_orgs` RPC; missing `result` key yields `[]`. -/
def get_datasets (st : GlobalState) (net : Net) :
    List HttpRequest × Except PyError (List String) :=
  let call := rpc_call st net "list_orgs" []
  (call.1,
    match call.2 with
    | .error e => .error e
    | .ok d =>
      match jsonLookup d "result" with
      | none => .ok []
      | some res =>
        match OrganizationList.ofJson? res with
        | none => .error (.typeError "OrganizationList")
        | some orgs => .ok orgs.organizations)

def connErrMsg : String :=
  "There was an error communicating with the Vanna.AI API. Please try again or contact support@vanna.ai"

/-- `set_api_key(key)`: assigns the global `api_key`, then validates it via
`get_datasets()`, raising `ConnectionError` when the list is empty.  Returns
the final global state, the requests sent and the outcome. -/
def set_api_key (st : GlobalState) (net : Net) (key : String) :
    GlobalState × List HttpRequest × Except PyError Unit :=
  let st1 := { st with api_key := some key }
  let call := get_datasets st1 net
  match call.2 with
  | .error e => (st1, call.1, .error e)
  | .ok datasets =>
    if datasets.length = 0 then (st1, call.1, .error (.connectionError connErrMsg))
    else (st1, call.1, .ok ())

/-- `create_dataset(dataset, db_type)`: defaults `__org` to `"demo-tpc-h"`
when unset, issues `create_org`, and on a successful status sets `__org` to
the new dataset name. -/
def create_dataset (st : GlobalState) (net : Net) (dataset : String) (db_type : String) :
    GlobalState × List HttpRequest × Except PyError Bool :=
  let st1 := if st.org = none then { st with org := some "demo-tpc-h" } else st
  let call := rpc_call st1 net "create_org" [.newOrganization dataset db_type]
  let step : GlobalState × Except PyError Bool :=
    match call.2 with
    | .error e => (st1, .error e)
    | .ok d =>
      match jsonLookup d "result" with
      | none => (st1, .ok false)
      | some res =>
        match Status.ofJson? res with
        | none => (st1, .error (.typeError "Status"))
        | some status =>
          if status.success then ({ st1 with org := some dataset }, .ok status.success)
          else (st1, .ok status.success)
  (step.1, call.1, step.2)

/-- `add_sql(question, sql, tag)`: `store_sql` RPC; `False` when the
response has no `result` key, else the decoded status's success flag. -/
def add_sql (st : GlobalState) (net : Net)
    (question : Option String) (sql : Option String) (tag : Option String) :
    List HttpRequest × Except PyError Bool :=
  let call := rpc_call st net "store_sql" [.questionSQLPair question sql tag]
  (call.1,
    match call.2 with
    | .error e => .error e
    | .ok d =>
      match jsonLookup d "result" with
      | none => .ok false
      | some res =>
        match Status.ofJson? res with
        | none => .error (.typeError "Status")
        | some status => .ok status.success)

/-- `add_ddl(ddl)`: `store_ddl` RPC with a `StringData(data=ddl)` parameter. -/
def add_ddl (st : GlobalState) (net : Net) (ddl : Option String) :
    List HttpRequest × Except PyError Bool :=
  let call := rpc_call st net "store_ddl" [.stringData ddl]
  (call.1,
    match call.2 with
    | .error e => .error e
    | .ok d =>
      match jsonLookup d "result" with
      | none => .ok false
      | some res =>
        match Status.ofJson? res with
        | none => .error (.typeError "Status")
        | some status => .ok status.success)

/-- `add_documentation(documentation)`: `store_documentation` RPC. -/
def add_documentation (st : GlobalState) (net : Net) (documentation : Option String) :
    List HttpRequest × Except PyError Bool :=
  let call := rpc_call st net "store_documentation" [.stringData documentation]
  (call.1,
    match call.2 with
    | .error e => .error e
    | .ok d =>
      match jsonLookup d "result" with
      | none => .ok false
      | some res =>
        match Status.ofJson? res with
        | none => .error (.typeError "Status")
        | some status => .ok status.success)

/-- `generate_sql(question)`: `generate_sql_from_question` RPC; `None` when
the response has no `result` key, else the decoded answer's `sql` field. -/
def generate_sql (st : GlobalState) (net : Net) (question : String) :
    List HttpRequest × Except PyError (Option String) :=
  let call := rpc_call st net "generate_sql_from_question" [.question question]
  (call.1,
    match call.2 with
    | .error e => .error e
    | .ok d =>
      match jsonLookup d "result" with
      | none => .ok none
      | some res =>
        match SQLAnswer.ofJson? res with
        | none => .error (.typeError "SQLAnswer")
        | some a => .ok (some a.sql))

/-- `df.head().to_markdown()`: the first five rows rendered to text. -/
def df_head_markdown (df : Df) : String :=
  String.intercalate "\n" ((df.take 5).map (String.intercalate " | "))

/-- `generate_followup_questions(question, df)`: note the source fixes the
parameter's `sql` field to `None`. -/
def generate_followup_questions (st : GlobalState) (net : Net) (question : String) (df : Df) :
    List HttpRequest × Except PyError (Option (List String)) :=
  let call := rpc_call st net "generate_followup_questions"
    [.dataResult (some question) none (df_head_markdown df) none 0]
  (call.1,
    match call.2 with
    | .error e => .error e
    | .ok d =>
      match jsonLookup d "result" with
      | none => .ok none
      | some res =>
        match QuestionStringList.ofJson? res with
        | none => .error (.typeError "QuestionStringList")
        | some qs => .ok (some qs.questions))

/-- `generate_plotly_code(question, sql, df)`. -/
def generate_plotly_code (st : GlobalState) (net : Net)
    (question : Option String) (sql : Option String) (df : Df) :
    List HttpRequest × Except PyError (Option String) :=
  let call := rpc_call st net "generate_plotly_code"
    [.dataResult question sql (df_head_markdown df) none 0]
  (call.1,
    match call.2 with
    | .error e => .error e
    | .ok d =>
      match jsonLookup d "result" with
      | none => .ok none
      | some res =>
        match PlotlyResult.ofJson? res with
        | none => .error (.typeError "PlotlyResult")
        | some pc => .ok (some pc.plotly_code))

/-- `generate_question(sql)`: `generate_question` RPC with an `SQLAnswer`
parameter whose other fields are empty strings. -/
def generate_question (st : GlobalState) (net : Net) (sql : Option String) :
    List HttpRequest × Except PyError (Option String) :=
  let call := rpc_call st net "generate_question" [.sqlAnswer "" "" "" sql]
  (call.1,
    match call.2 with
    | .error e => .error e
    | .ok d =>
      match jsonLookup d "result" with
      | none => .ok none
      | some res =>
        match QuestionRec.ofJson? res with
        | none => .error (.typeError "Question")
        | some q => .ok (some q.question))

def removeSqlMsg : String := "Error removing SQL"

/-- `remove_sql(question)`: unlike the other boolean operations, a response
without a `result` key raises `SQLRemoveError`, and so does an unsuccessful
status. -/
def remove_sql (st : GlobalState) (net : Net) (question : String) :
    List HttpRequest × Except PyError Bool :=
  let call := rpc_call st net "remove_sql" [.question question]
  (call.1,
    match call.2 with
    | .error e => .error e
    | .ok d =>
      match jsonLookup d "result" with
      | none => .error (.sqlRemoveError removeSqlMsg)
      | some res =>
        match Status.ofJson? res with
        | none => .error (.typeError "Status")
        | some status =>
          if status.success then .ok status.success
          else .error (.sqlRemoveError (removeSqlMsg ++ ": " ++ status.message)))

/-! ## `train` -/

/-- Python truthiness of an optional string argument. -/
def truthy : Option String → Bool
  | none => false
  | some s => s ≠ ""

/-- Modelled from the spec: the `QuestionCategory.SQL_RAN` tag constant of
the `types` module (not under the provided source); no claim observes its
concrete string value. -/
def QuestionCategory_SQL_RAN : String := "SQL_RAN"

/-- The `train` branch on `question and not sql`; in the source the message
is an f-string that itself invokes `ask(question=...)`; the message text is
not observable to any claim. -/
def trainValidationMsg : String := "Please also provide a SQL query"

inductive TrainOutcome where
  /-- An exception propagated out of `train`. -/
  | raised (e : PyError)
  /-- `return <bool>` from one of the `add_*` branches. -/
  | returned (b : Bool)
  /-- The implicit `return None` at the end of the function body. -/
  | returnedNone
  /-- The `json_file` / `sql_file` branches (file IO, reached only when one
  of those arguments is truthy; not modelled further). -/
  | fileBranch
  deriving DecidableEq, Repr

/-- `train(question, sql, ddl, documentation, json_file, sql_file)`.  The
`question`/`sql`/`ddl` branches are modelled faithfully; in particular the
`ddl` branch calls `add_ddl(sql)` — passing the `sql` argument, not `ddl`
(source line `return add_ddl(sql)`). -/
def train (st : GlobalState) (net : Net)
    (question sql ddl : Option String) (documentation : Bool)
    (json_file sql_file : Option String) : List HttpRequest × TrainOutcome :=
  if truthy question && !truthy sql then
    ([], .raised (.validationError trainValidationMsg))
  else if truthy sql then
    if documentation then
      match add_documentation st net sql with
      | (sent, .error e) => (sent, .raised e)
      | (sent, .ok b) => (sent, .returned b)
    else
      match generate_question st net sql with
      | (sent, .error e) => (sent, .raised e)
      | (sent, .ok q) =>
        match add_sql st net q sql (some "Manually Trained") with
        | (sent2, .error e) => (sent ++ sent2, .raised e)
        | (sent2, .ok b) => (sent ++ sent2, .returned b)
  else if truthy ddl then
    match add_ddl st net sql with
    | (sent, .error e) => (sent, .raised e)
    | (sent, .ok b) => (sent, .returned b)
  else if truthy json_file || truthy sql_file then
    ([], .fileBranch)
  else
    ([], .returnedNone)

/-! ## The `ask` pipeline -/

/-- The pipeline stages of `ask`, in source order. -/
inductive Stage where
  | genSql
  | runSqlStage
  | genChart
  | renderChart
  | genFollowups
  deriving DecidableEq, Repr

/-- The stages in the order the source enters them. -/
def canonicalStages : List Stage :=
  [.genSql, .runSqlStage, .genChart, .renderChart, .genFollowups]

/-- The non-RPC effects `ask` needs: `input()`, `display(df)`, invoking the
injected `run_sql` function, `exec`-ing generated Plotly code, and
`fig.show()`. -/
structure AskEnv where
  input_fn : Unit → String
  display_fn : Df → Except PyError Unit
  run_sql_impl : RunSqlFn → Option String → Except PyError (Option Df)
  run_plotly : String → Df → Except PyError (Option Fig)
  show_fn : Fig → Except PyError Unit

/-- `get_plotly_figure(plotly_code, df)`: `exec`-ing `None` raises a
`TypeError`; otherwise the environment runs the code and yields the `fig`
local (possibly `None`). -/
def get_plotly_figure (env : AskEnv) (plotly_code : Option String) (df : Df) :
    Except PyError (Option Fig) :=
  match plotly_code with
  | none => .error (.typeError "exec: code must not be None")
  | some code => env.run_plotly code df

abbrev AskResult := Option String × Option Df × Option Fig × Option (List String)

/-- The `if len(df) > 0 and auto_train: add_sql(...)` step inside `ask`'s
outer `try`: an exception from `add_sql` propagates to the outer handler. -/
def askAddStep (st : GlobalState) (net : Net) (q : String) (sqlOpt : Option String)
    (df : Df) (auto_train : Bool) : Except PyError Unit :=
  if df.length > 0 && auto_train then
    match (add_sql st net (some q) sqlOpt (some QuestionCategory_SQL_RAN)).2 with
    | .error e => .error e
    | .ok _ => .ok ()
  else .ok ()

/-- The `if print_results: fig.show()` step inside `ask`'s inner `try`:
when the figure is `None`, attribute access raises. -/
def askShowStep (env : AskEnv) (figOpt : Option Fig) (print_results : Bool) :
    Except PyError Unit :=
  if print_results then
    match figOpt with
    | none => .error (.attributeError "NoneType object has no attribute show")
    | some fig => env.show_fn fig
  else .ok ()

/-- `ask(question, print_results, auto_train, generate_followups)`.

The first component is the returned 4-tuple `(sql, df, fig,
followup_questions)`.  The second component is proof instrumentation absent
from the source: it records, in order, which pipeline stages were entered
(a stage is entered when its call is made, whether or not it succeeds).
`display(df)` failures are swallowed by the source's inner `try/except` and
so do not appear as a branch.  When `run_sql` yields `None` (the bigquery
closure can), the subsequent `len(df)` raises and the outer handler
returns `(sql, None, None, None)`. -/
def ask (st : GlobalState) (net : Net) (env : AskEnv)
    (question : Option String) (print_results auto_train generate_followups : Bool) :
    AskResult × List Stage :=
  let q := match question with
    | some q => q
    | none => env.input_fn ()
  match (generate_sql st net q).2 with
  | .error _ => ((none, none, none, none), [.genSql])
  | .ok sqlOpt =>
    match st.run_sql with
    | none => ((sqlOpt, none, none, none), [.genSql])
    | some rs =>
      match env.run_sql_impl rs sqlOpt with
      | .error _ => ((sqlOpt, none, none, none), [.genSql, .runSqlStage])
      | .ok dfOpt =>
        match dfOpt with
        | none => ((sqlOpt, none, none, none), [.genSql, .runSqlStage])
        | some df =>
          match askAddStep st net q sqlOpt df auto_train with
          | .error _ => ((sqlOpt, none, none, none), [.genSql, .runSqlStage])
          | .ok _ =>
            match (generate_plotly_code st net (some q) sqlOpt df).2 with
            | .error _ => ((sqlOpt, some df, none, none), [.genSql, .runSqlStage, .genChart])
            | .ok codeOpt =>
              match get_plotly_figure env codeOpt df with
              | .error _ =>
                  ((sqlOpt, some df, none, none),
                   [.genSql, .runSqlStage, .genChart, .renderChart])
              | .ok figOpt =>
                match askShowStep env figOpt print_results with
                | .error _ =>
                    ((sqlOpt, some df, none, none),
                     [.genSql, .runSqlStage, .genChart, .renderChart])
                | .ok _ =>
                  if generate_followups then
                    match (generate_followup_questions st net q df).2 with
                    | .error _ =>
                        ((sqlOpt, some df, none, none),
                         [.genSql, .runSqlStage, .genChart, .renderChart, .genFollowups])
                    | .ok fqOpt =>
                        ((sqlOpt, some df, figOpt, fqOpt),
                         [.genSql, .runSqlStage, .genChart, .renderChart, .genFollowups])
                  else
                    ((sqlOpt, some df, figOpt, none),
                     [.genSql, .runSqlStage, .genChart, .renderChart])

/-! ## Database connector helpers and their `run_sql` closures

Driver effects are oracles: a driver call either yields a result or raises
the driver's own exception, modelled as the `String` payload of the
`Except.error`. -/

/-- `run_sql_snowflake(sql)` (the closure installed by
`connect_to_snowflake`): runs `USE ROLE`/`USE DATABASE` and the query on
the captured connection; a driver exception propagates unchanged (there is
no `try/except` in this closure). -/
def run_sql_snowflake (conn : Nat) (role : Option String) (database : String)
    (driver : Nat → Option String → String → Option String → Except String Df)
    (sql : Option String) : Except PyError Df :=
  match driver conn role database sql with
  | .ok df => .ok df
  | .error e => .error (.driverError e)

/-- `run_sql_bigquery(sql)`: on `GoogleAPIError` the source collects the
error messages into a list and executes `raise errors` on that list; a falsy
`conn` returns `None`. -/
def run_sql_bigquery (conn : Option Nat)
    (driver : Nat → Option String → Except (List String) Df)
    (sql : Option String) : Except PyError (Option Df) :=
  match conn with
  | none => .ok none
  | some c =>
    match driver c sql with
    | .ok df => .ok (some df)
    | .error msgs => .error (.raisedList msgs)

/-- `run_sql_postgres(sql)`: a `psycopg2.Error` is caught and re-raised as
`ValidationError(e)`; a falsy `conn` falls through to the implicit `return
None`. -/
def run_sql_postgres (conn : Option Nat)
    (driver : Nat → Option String → Except String Df)
    (sql : Option String) : Except PyError (Option Df) :=
  match conn with
  | none => .ok none
  | some c =>
    match driver c sql with
    | .ok df => .ok (some df)
    | .error e => .error (.validationError e)

/-- The effects `connect_to_snowflake` needs: the module import, `os.getenv`
and `snowflake.connector.connect` (whose errors propagate). -/
structure SnowflakeEnv where
  import_ok : Bool
  getenv : String → Option String
  connect : String → String → String → String → Except String Nat

/-- Resolve one snowflake argument against its placeholder sentinel and
environment variable, raising `ImproperlyConfigured` when both are absent. -/
def resolveSnowflakeArg (env : SnowflakeEnv) (value sentinel envKey msg : String) :
    Except PyError String :=
  if value = sentinel then
    match env.getenv envKey with
    | some v => .ok v
    | none => .error (.improperlyConfigured msg)
  else .ok value

/-- `connect_to_snowflake(account, username, password, database, role)`:
resolves the arguments (in source order: username, password, account,
database), opens the driver connection, and installs the snowflake closure
as the global `run_sql`. -/
def connect_to_snowflake (st : GlobalState) (env : SnowflakeEnv)
    (account username password database : String) (role : Option String) :
    Except PyError GlobalState :=
  if !env.import_ok then
    .error (.dependencyError "You need to install required dependencies to execute this method, run command: pip install vanna[snowflake]")
  else
    match resolveSnowflakeArg env username "my-username" "SNOWFLAKE_USERNAME"
        "Please set your Snowflake username." with
    | .error e => .error e
    | .ok username' =>
      match resolveSnowflakeArg env password "my-password" "SNOWFLAKE_PASSWORD"
          "Please set your Snowflake password." with
      | .error e => .error e
      | .ok password' =>
        match resolveSnowflakeArg env account "my-account" "SNOWFLAKE_ACCOUNT"
            "Please set your Snowflake account." with
        | .error e => .error e
        | .ok account' =>
          match resolveSnowflakeArg env database "my-database" "SNOWFLAKE_DATABASE"
              "Please set your Snowflake database." with
          | .error e => .error e
          | .ok database' =>
            match env.connect username' password' account' database' with
            | .error e => .error (.driverError e)
            | .ok c => .ok { st with run_sql := some (.snowflake c role database') }

/-- The effects `connect_to_bigquery` needs: the module import,
`os.getenv`, `validate_config_path`, reading and parsing the credential
file, and constructing `bigquery.Client`. -/
structure BigQueryEnv where
  import_ok : Bool
  getenv : String → Option String
  validate_config_path : String → Except PyError Unit
  read_credentials : String → Except PyError Nat
  client : String → Nat → Except PyError Nat

/-- `if not project_id: project_id = os.getenv('PROJECT_ID')`. -/
def bigqueryProjectId (env : BigQueryEnv) (project_id : Option String) : Option String :=
  if truthy project_id then project_id else env.getenv "PROJECT_ID"

/-- `connect_to_bigquery(cred_file_path, project_id)`: any exception from
`bigquery.Client` is swallowed by the source's bare `except:` and replaced
with `ImproperlyConfigured`; on success the bigquery closure is installed
as the global `run_sql`. -/
def connect_to_bigquery (st : GlobalState) (env : BigQueryEnv)
    (cred_file_path : String) (project_id : Option String) :
    Except PyError GlobalState :=
  if !env.import_ok then
    .error (.dependencyError "You need to install required dependencies to execute this method, run command: pip install vanna[bigquery]")
  else if !truthy (bigqueryProjectId env project_id) then
    .error (.improperlyConfigured "Please set your Google Cloud Project ID.")
  else
    match env.validate_config_path cred_file_path with
    | .error e => .error e
    | .ok _ =>
      match env.read_credentials cred_file_path with
      | .error e => .error e
      | .ok creds =>
        match env.client ((bigqueryProjectId env project_id).getD "") creds with
        | .error _ =>
            .error (.improperlyConfigured "Could not connect to bigquery please correct credentials")
        | .ok c => .ok { st with run_sql := some (.bigquery (some c)) }

/-- The effects `connect_to_postgres` needs: the module import, `os.getenv`
and `psycopg2.connect` (whose `psycopg2.Error` the source wraps in
`ValidationError`). -/
structure PostgresEnv where
  import_ok : Bool
  getenv : String → Option String
  pg_connect : String → String → String → String → String → Except String Nat

/-- `if not v: v = os.getenv(key)`. -/
def orEnv (v : Option String) (envv : Option String) : Option String :=
  if truthy v then v else envv

/-- One postgres argument after its `if not v: v = os.getenv(key)` fallback. -/
def pgResolved (env : PostgresEnv) (v : Option String) (key : String) : Option String :=
  orEnv v (env.getenv key)

/-- `connect_to_postgres(host, dbname, user, password, port)`: each missing
argument falls back to its environment variable and then raises
`ImproperlyConfigured`; a `psycopg2.Error` from `connect` is re-raised as
`ValidationError`; on success the postgres closure is installed as the
global `run_sql`. -/
def connect_to_postgres (st : GlobalState) (env : PostgresEnv)
    (host dbname user password port : Option String) :
    Except PyError GlobalState :=
  if !env.import_ok then
    .error (.dependencyError "You need to install required dependencies to execute this method, run command: pip install vanna[postgres]")
  else if !truthy (pgResolved env host "HOST") then
    .error (.improperlyConfigured "Please set your Postgres Host")
  else if !truthy (pgResolved env dbname "DATABASE") then
    .error (.improperlyConfigured "Please set your Postgres Database")
  else if !truthy (pgResolved env user "USER") then
    .error (.improperlyConfigured "Please set your Postgres User")
  else if !truthy (pgResolved env password "PASSWORD") then
    .error (.improperlyConfigured "Please set your Postgres Password")
  else if !truthy (pgResolved env port "PORT") then
    .error (.improperlyConfigured "Please set your Postgres Port")
  else
    match env.pg_connect ((pgResolved env host "HOST").getD "")
        ((pgResolved env dbname "DATABASE").getD "")
        ((pgResolved env user "USER").getD "")
        ((pgResolved env password "PASSWORD").getD "")
        ((pgResolved env port "PORT").getD "") with
    | .error e => .error (.validationError e)
    | .ok c => .ok { st with run_sql := some (.postgres (some c)) }

/-! ## Claim theorems -/

/-- A network oracle used by concrete witnesses. -/
def nullNet : Net := fun _ => Json.null

/-- C2: every operation that goes through the authenticated RPC transport
has the session state checked before use: a `None` `api_key` raises
`ImproperlyConfigured` with no request sent, and a `None` dataset with a
method other than `list_orgs` likewise raises `ImproperlyConfigured` with
no request sent. -/
theorem C2_rpc_call_session_checks :
    (∀ st net method params, st.api_key = none →
      rpc_call st net method params =
        ([], .error (.improperlyConfigured apiKeyNotSetMsg))) ∧
    (∀ st net method params key, st.api_key = some key →
      st.org = none → method ≠ "list_orgs" →
      rpc_call st net method params =
        ([], .error (.improperlyConfigured datasetNotSetMsg))) := by
  constructor
  · intro st net method params h
    simp [rpc_call, h]
  · intro st net method params key hk ho hm
    simp [rpc_call, hk, ho, hm]

theorem C2_witness :
    rpc_call ⟨none, none, none⟩ nullNet "generate_sql_from_question" [] =
      ([], .error (.improperlyConfigured apiKeyNotSetMsg)) ∧
    rpc_call ⟨some "k", none, none⟩ nullNet "store_sql" [] =
      ([], .error (.improperlyConfigured datasetNotSetMsg)) :=
  ⟨C2_rpc_call_session_checks.1 ⟨none, none, none⟩ nullNet
      "generate_sql_from_question" [] rfl,
   C2_rpc_call_session_checks.2 ⟨some "k", none, none⟩ nullNet
      "store_sql" [] "k" rfl rfl (by decide)⟩

/-- C6: both transports send a single HTTP POST whose JSON body is an
object with exactly the fields `method` (the method name) and `params`
(the parameter records converted to dictionaries, in order), and return
the decoded JSON response. -/
theorem C6_transport_request_shape :
    (∀ net method params,
      unauthenticated_rpc_call net method params =
        ([⟨unauthenticated_endpoint, [("Content-Type", "application/json")],
            rpcBody method params⟩],
         net ⟨unauthenticated_endpoint, [("Content-Type", "application/json")],
            rpcBody method params⟩)) ∧
    (∀ st net method params key, st.api_key = some key →
      (st.org ≠ none ∨ method = "list_orgs") →
      ∃ req, rpc_call st net method params = ([req], .ok (net req)) ∧
        req.body = rpcBody method params) := by
  constructor
  · intro net method params
    rfl
  · intro st net method params key hk hor
    have hcond : ¬(st.org = none ∧ method ≠ "list_orgs") := by
      rcases hor with h | h
      · exact fun hc => h hc.1
      · exact fun hc => hc.2 h
    simp only [rpc_call, hk]
    rw [if_neg hcond]
    exact ⟨_, rfl, rfl⟩

theorem C6_witness :
    (unauthenticated_rpc_call nullNet "send_otp" [] =
      ([⟨unauthenticated_endpoint, [("Content-Type", "application/json")],
          rpcBody "send_otp" []⟩],
       nullNet ⟨unauthenticated_endpoint,
          [("Content-Type", "application/json")], rpcBody "send_otp" []⟩)) ∧
    ∃ req, rpc_call ⟨some "k", some "o", none⟩ nullNet "store_sql"
        [.question "q"] = ([req], .ok (nullNet req)) ∧
      req.body = rpcBody "store_sql" [.question "q"] :=
  ⟨C6_transport_request_shape.1 nullNet "send_otp" [],
   C6_transport_request_shape.2 ⟨some "k", some "o", none⟩ nullNet
      "store_sql" [.question "q"] "k" rfl (Or.inl (by decide))⟩

/-- The concrete session state used by the C3 scenario. -/
def c3State : GlobalState := ⟨some "key", some "org", none⟩

/-- A network oracle whose responses never carry a `result` key. -/
def noResultNet : Net := fun _ => Json.obj [("error", Json.str "backend failure")]

/-- C3 counterexample: `remove_sql` is an RPC-backed boolean operation, yet
on a response without a `result` key it raises `SQLRemoveError` instead of
returning its failure value `False`. -/
theorem C3_counterexample :
    (remove_sql c3State noResultNet "q").2 = .error (.sqlRemoveError removeSqlMsg) ∧
    (remove_sql c3State noResultNet "q").2 ≠ .ok false := by
  constructor
  · rfl
  · intro h
    have h' : Except.error (PyError.sqlRemoveError removeSqlMsg) =
        (Except.ok false : Except PyError Bool) := h
    exact Except.noConfusion h'

/-- C3 (amended): every RPC-backed operation checks the response for a
`result` key; when the key is present the value is deserialized into the
operation's typed record and the derived value is returned, and when it is
absent `generate_sql` returns `None` and `add_sql` returns `False` without
deserializing anything — but `remove_sql` (and `remove_training_data`)
instead raise an exception on a missing `result` key. -/
theorem C3_result_key_check :
    (∀ st net question d,
      (rpc_call st net "generate_sql_from_question" [.question question]).2 = .ok d →
      jsonLookup d "result" = none →
      (generate_sql st net question).2 = .ok none) ∧
    (∀ st net question d res a,
      (rpc_call st net "generate_sql_from_question" [.question question]).2 = .ok d →
      jsonLookup d "result" = some res → SQLAnswer.ofJson? res = some a →
      (generate_sql st net question).2 = .ok (some a.sql)) ∧
    (∀ st net question sql tag d,
      (rpc_call st net "store_sql" [.questionSQLPair question sql tag]).2 = .ok d →
      jsonLookup d "result" = none →
      (add_sql st net question sql tag).2 = .ok false) ∧
    (∀ st net question sql tag d res s,
      (rpc_call st net "store_sql" [.questionSQLPair question sql tag]).2 = .ok d →
      jsonLookup d "result" = some res → Status.ofJson? res = some s →
      (add_sql st net question sql tag).2 = .ok s.success) ∧
    (∀ st net question d,
      (rpc_call st net "remove_sql" [.question question]).2 = .ok d →
      jsonLookup d "result" = none →
      (remove_sql st net question).2 = .error (.sqlRemoveError removeSqlMsg)) := by
  refine ⟨?_, ?_, ?_, ?_, ?_⟩
  · intro st net question d h1 h2
    simp [generate_sql, h1, h2]
  · intro st net question d res a h1 h2 h3
    simp [generate_sql, h1, h2, h3]
  · intro st net question sql tag d h1 h2
    simp [add_sql, h1, h2]
  · intro st net question sql tag d res s h1 h2 h3
    simp [add_sql, h1, h2, h3]
  · intro st net question d h1 h2
    simp [remove_sql, h1, h2]

theorem C3_witness :
    (generate_sql c3State noResultNet "q").2 = .ok none ∧
    (add_sql c3State noResultNet (some "q") (some "s") none).2 = .ok false :=
  ⟨C3_result_key_check.1 c3State noResultNet "q" _ rfl rfl,
   C3_result_key_check.2.2.1 c3State noResultNet (some "q") (some "s") none _ rfl rfl⟩

/-- C9: `set_api_key` assigns the global `api_key` before validating it, so
when `get_datasets()` comes back empty and `ConnectionError` is raised, the
global `api_key` nevertheless retains the new value. -/
theorem C9_set_api_key_not_atomic :
    ∀ st net key,
      (get_datasets { st with api_key := some key } net).2 = .ok [] →
      (set_api_key st net key).2.2 = .error (.connectionError connErrMsg) ∧
      (set_api_key st net key).1.api_key = some key := by
  intro st net key h
  constructor
  · simp [set_api_key, h]
  · simp [set_api_key, h]

/-- A network oracle answering the empty JSON object to everything. -/
def emptyObjNet : Net := fun _ => Json.obj []

theorem C9_witness :
    (set_api_key ⟨none, none, none⟩ emptyObjNet "K").2.2 =
      .error (.connectionError connErrMsg) ∧
    (set_api_key ⟨none, none, none⟩ emptyObjNet "K").1.api_key = some "K" :=
  C9_set_api_key_not_atomic ⟨none, none, none⟩ emptyObjNet "K" rfl

/-- The value `__org` holds at the moment `create_dataset` issues its
`create_org` RPC: defaulted to `"demo-tpc-h"` when it was unset. -/
def orgAtIssue (st : GlobalState) : Option String :=
  if st.org = none then some "demo-tpc-h" else st.org

theorem org_at_issue_eq (st : GlobalState) :
    (if st.org = none then { st with org := some "demo-tpc-h" } else st).org =
      orgAtIssue st := by
  by_cases h : st.org = none <;> simp [orgAtIssue, h]

/-- C10: `create_dataset` mutates the active dataset global: when no
dataset was set, the RPC is issued with `__org = "demo-tpc-h"` (visible in
the request header); on a successful status the active dataset becomes the
new name; on failure (missing `result` key, unsuccessful status, or a
raised exception) it keeps the value it had when the RPC was issued. -/
theorem C10_create_dataset_org_mutation :
    ∀ st net dataset db_type,
      (∀ key, st.org = none → st.api_key = some key →
        ∃ req, (create_dataset st net dataset db_type).2.1 = [req] ∧
          ("Vanna-Org", "demo-tpc-h") ∈ req.headers) ∧
      ((create_dataset st net dataset db_type).2.2 = .ok true →
        (create_dataset st net dataset db_type).1.org = some dataset) ∧
      ((create_dataset st net dataset db_type).2.2 = .ok false →
        (create_dataset st net dataset db_type).1.org = orgAtIssue st) ∧
      (∀ e, (create_dataset st net dataset db_type).2.2 = .error e →
        (create_dataset st net dataset db_type).1.org = orgAtIssue st) := by
  intro st net dataset db_type
  refine ⟨?_, ?_, ?_, ?_⟩
  · intro key ho hk
    simp [create_dataset, rpc_call, ho, hk]
  · simp only [create_dataset]
    split
    · intro h; cases h
    · split
      · intro h; cases h
      · split
        · intro h; cases h
        · split
          · simp
          · intro h
            injection h with h'
            simp_all
  · simp only [create_dataset]
    split
    · intro h; cases h
    · split
      · intro _; exact org_at_issue_eq st
      · split
        · intro h; cases h
        · split
          · intro h
            injection h with h'
            simp_all
          · intro _; exact org_at_issue_eq st
  · simp only [create_dataset]
    intro e
    split
    · intro _; exact org_at_issue_eq st
    · split
      · intro h; cases h
      · split
        · intro _; exact org_at_issue_eq st
        · split
          · intro h; cases h
          · intro h; cases h

/-- A network oracle answering a successful `Status` to everything. -/
def successNet : Net := fun _ =>
  Json.obj [("result", Json.obj [("success", Json.bool true), ("message", Json.str "ok")])]

theorem C10_witness :
    (∃ req, (create_dataset ⟨some "k", none, none⟩ successNet "my-ds" "postgres").2.1 =
        [req] ∧ ("Vanna-Org", "demo-tpc-h") ∈ req.headers) ∧
    (create_dataset ⟨some "k", none, none⟩ successNet "my-ds" "postgres").1.org =
      some "my-ds" :=
  ⟨(C10_create_dataset_org_mutation ⟨some "k", none, none⟩ successNet "my-ds" "postgres").1
      "k" rfl rfl,
   (C10_create_dataset_org_mutation ⟨some "k", none, none⟩ successNet "my-ds" "postgres").2.1
      rfl⟩

/-- C8: `train(ddl=d)` with `question=None` and `sql=None` submits the
`sql` argument — that is, `None` — to the `store_ddl` RPC, so the DDL
statement `d` itself is never sent: the request's `data` field is JSON
`null`, never `Json.str d`. -/
theorem C8_train_ddl_sends_none :
    ∀ st net d key org, st.api_key = some key → st.org = some org → d ≠ "" →
      (train st net none none (some d) false none none).1 =
        [⟨endpoint,
          [("Content-Type", "application/json"), ("Vanna-Key", key), ("Vanna-Org", org)],
          rpcBody "store_ddl" [.stringData none]⟩] ∧
      dataclass_to_dict (Param.stringData none) = Json.obj [("data", Json.null)] ∧
      (∀ s : String, Json.obj [("data", Json.null)] ≠ Json.obj [("data", Json.str s)]) := by
  intro st net d key org hk ho hd
  refine ⟨?_, rfl, ?_⟩
  · have h1 : (train st net none none (some d) false none none).1 =
        (add_ddl st net none).1 := by
      have htd : truthy (some d) = true := by simp [truthy, hd]
      rcases hcall : add_ddl st net none with ⟨sent, r⟩
      cases r <;> simp [train, truthy, htd, hcall, hd]
    rw [h1]
    simp [add_ddl, rpc_call, hk, ho]
  · intro s h
    injection h with h'
    injection h' with h2 _
    injection h2 with _ h3
    exact Json.noConfusion h3

theorem C8_witness :
    "CREATE TABLE t (x INT)" ≠ "" ∧
    (train ⟨some "key", some "org", none⟩ nullNet none none
        (some "CREATE TABLE t (x INT)") false none none).1 =
      [⟨endpoint,
        [("Content-Type", "application/json"), ("Vanna-Key", "key"), ("Vanna-Org", "org")],
        rpcBody "store_ddl" [.stringData none]⟩] :=
  ⟨by decide,
   (C8_train_ddl_sends_none ⟨some "key", some "org", none⟩ nullNet
      "CREATE TABLE t (x INT)" "key" "org" rfl rfl (by decide)).1⟩

/-- C5 counterexample: a driver error inside the postgres closure does not
propagate as the driver raised it — the closure substitutes
`ValidationError` for the driver's own exception. -/
theorem C5_counterexample :
    run_sql_postgres (some 1) (fun _ _ => .error "deadlock detected") (some "SELECT 1") =
      .error (.validationError "deadlock detected") ∧
    run_sql_postgres (some 1) (fun _ _ => .error "deadlock detected") (some "SELECT 1") ≠
      .error (.driverError "deadlock detected") := by
  constructor
  · rfl
  · intro h
    have h' : (Except.error (PyError.validationError "deadlock detected") :
        Except PyError (Option Df)) = .error (.driverError "deadlock detected") := h
    injection h' with h''
    exact PyError.noConfusion h''

/-- C5 (amended): none of the closures retries or corrects a failed query
— each surfaces the driver failure exactly once — but only the snowflake
closure propagates the driver's exception unchanged; the postgres closure
re-raises `psycopg2` errors wrapped in `ValidationError`, and the bigquery
closure raises the list of the `GoogleAPIError`'s error messages. -/
theorem C5_closure_error_wrapping :
    (∀ conn role database driver (sql : Option String) e,
      driver conn role database sql = .error e →
      run_sql_snowflake conn role database driver sql = .error (.driverError e)) ∧
    (∀ c driver (sql : Option String) msgs, driver c sql = .error msgs →
      run_sql_bigquery (some c) driver sql = .error (.raisedList msgs)) ∧
    (∀ c driver (sql : Option String) e, driver c sql = .error e →
      run_sql_postgres (some c) driver sql = .error (.validationError e)) := by
  refine ⟨?_, ?_, ?_⟩
  · intro conn role database driver sql e h
    simp [run_sql_snowflake, h]
  · intro c driver sql msgs h
    simp [run_sql_bigquery, h]
  · intro c driver sql e h
    simp [run_sql_postgres, h]

theorem C5_witness :
    run_sql_snowflake 1 none "db" (fun _ _ _ _ => .error "bad role") (some "SELECT 1") =
      .error (.driverError "bad role") ∧
    run_sql_bigquery (some 2) (fun _ _ => .error ["quota exceeded"]) (some "SELECT 2") =
      .error (.raisedList ["quota exceeded"]) ∧
    run_sql_postgres (some 3) (fun _ _ => .error "syntax error") (some "SELECT 3") =
      .error (.validationError "syntax error") :=
  ⟨C5_closure_error_wrapping.1 1 none "db" (fun _ _ _ _ => .error "bad role")
      (some "SELECT 1") "bad role" rfl,
   C5_closure_error_wrapping.2.1 2 (fun _ _ => .error ["quota exceeded"])
      (some "SELECT 2") ["quota exceeded"] rfl,
   C5_closure_error_wrapping.2.2 3 (fun _ _ => .error "syntax error")
      (some "SELECT 3") "syntax error" rfl⟩

/-- C7: each connector helper, when it returns normally, has opened a
driver-native connection and installed the corresponding closure over that
connection as the global `run_sql`, leaving `api_key` and the active
dataset/organization name unchanged. -/
theorem C7_connectors_install_closure :
    (∀ st env account username password database role st',
      connect_to_snowflake st env account username password database role = .ok st' →
      st'.api_key = st.api_key ∧ st'.org = st.org ∧
      ∃ u p a d c, env.connect u p a d = .ok c ∧
        st'.run_sql = some (.snowflake c role d)) ∧
    (∀ st env cred_file_path project_id st',
      connect_to_bigquery st env cred_file_path project_id = .ok st' →
      st'.api_key = st.api_key ∧ st'.org = st.org ∧
      ∃ proj creds c, env.client proj creds = .ok c ∧
        st'.run_sql = some (.bigquery (some c))) ∧
    (∀ st env host dbname user password port st',
      connect_to_postgres st env host dbname user password port = .ok st' →
      st'.api_key = st.api_key ∧ st'.org = st.org ∧
      ∃ h db u pw pt c, env.pg_connect h db u pw pt = .ok c ∧
        st'.run_sql = some (.postgres (some c))) := by
  refine ⟨?_, ?_, ?_⟩
  · intro st env account username password database role st' h
    unfold connect_to_snowflake at h
    cases hio : env.import_ok
    · simp [hio] at h
    · simp only [hio, Bool.not_true, Bool.false_eq_true, if_false] at h
      rcases hu : resolveSnowflakeArg env username "my-username" "SNOWFLAKE_USERNAME"
          "Please set your Snowflake username." with e | u <;> simp only [hu] at h
      · simp at h
      rcases hp : resolveSnowflakeArg env password "my-password" "SNOWFLAKE_PASSWORD"
          "Please set your Snowflake password." with e | p <;> simp only [hp] at h
      · simp at h
      rcases ha : resolveSnowflakeArg env account "my-account" "SNOWFLAKE_ACCOUNT"
          "Please set your Snowflake account." with e | a <;> simp only [ha] at h
      · simp at h
      rcases hd : resolveSnowflakeArg env database "my-database" "SNOWFLAKE_DATABASE"
          "Please set your Snowflake database." with e | d <;> simp only [hd] at h
      · simp at h
      rcases hc : env.connect u p a d with e | c <;> simp only [hc] at h
      · simp at h
      · simp only [Except.ok.injEq] at h
        subst h
        exact ⟨rfl, rfl, u, p, a, d, c, hc, rfl⟩
  · intro st env cred_file_path project_id st' h
    unfold connect_to_bigquery at h
    cases hio : env.import_ok
    · simp [hio] at h
    · simp only [hio, Bool.not_true, Bool.false_eq_true, if_false] at h
      cases hpid : truthy (bigqueryProjectId env project_id) <;> simp only [hpid] at h
      · simp at h
      · simp only [Bool.not_true, Bool.false_eq_true, if_false] at h
        rcases hv : env.validate_config_path cred_file_path with e | u <;> simp only [hv] at h
        · simp at h
        rcases hr : env.read_credentials cred_file_path with e | creds <;> simp only [hr] at h
        · simp at h
        rcases hc : env.client ((bigqueryProjectId env project_id).getD "") creds with e | c <;>
          simp only [hc] at h
        · simp at h
        · simp only [Except.ok.injEq] at h
          subst h
          exact ⟨rfl, rfl, _, creds, c, hc, rfl⟩
  · intro st env host dbname user password port st' h
    unfold connect_to_postgres at h
    cases hio : env.import_ok
    · simp [hio] at h
    · simp only [hio, Bool.not_true, Bool.false_eq_true, if_false] at h
      cases h1 : truthy (pgResolved env host "HOST") <;> simp only [h1] at h
      · simp at h
      cases h2 : truthy (pgResolved env dbname "DATABASE") <;> simp only [h2] at h
      · simp at h
      cases h3 : truthy (pgResolved env user "USER") <;> simp only [h3] at h
      · simp at h
      cases h4 : truthy (pgResolved env password "PASSWORD") <;> simp only [h4] at h
      · simp at h
      cases h5 : truthy (pgResolved env port "PORT") <;> simp only [h5] at h
      · simp at h
      simp only [Bool.not_true, Bool.false_eq_true, if_false] at h
      rcases hc : env.pg_connect ((pgResolved env host "HOST").getD "")
          ((pgResolved env dbname "DATABASE").getD "")
          ((pgResolved env user "USER").getD "")
          ((pgResolved env password "PASSWORD").getD "")
          ((pgResolved env port "PORT").getD "") with e | c <;> simp only [hc] at h
      · simp at h
      · simp only [Except.ok.injEq] at h
        subst h
        exact ⟨rfl, rfl, _, _, _, _, _, c, hc, rfl⟩

/-- Concrete states and environments for the C7 witness. -/
def stW : GlobalState := ⟨some "K", some "O", none⟩

def snowEnvW : SnowflakeEnv := ⟨true, fun _ => none, fun _ _ _ _ => .ok 7⟩

def bqEnvW : BigQueryEnv :=
  ⟨true, fun _ => none, fun _ => .ok (), fun _ => .ok 3, fun _ _ => .ok 9⟩

def pgEnvW : PostgresEnv := ⟨true, fun _ => none, fun _ _ _ _ _ => .ok 4⟩

def stWSnow : GlobalState := ⟨some "K", some "O", some (.snowflake 7 none "db")⟩

def stWBq : GlobalState := ⟨some "K", some "O", some (.bigquery (some 9))⟩

def stWPg : GlobalState := ⟨some "K", some "O", some (.postgres (some 4))⟩

theorem C7_witness :
    (stWSnow.api_key = stW.api_key ∧ stWSnow.org = stW.org ∧
      ∃ u p a d c, snowEnvW.connect u p a d = .ok c ∧
        stWSnow.run_sql = some (.snowflake c none d)) ∧
    (stWBq.api_key = stW.api_key ∧ stWBq.org = stW.org ∧
      ∃ proj creds c, bqEnvW.client proj creds = .ok c ∧
        stWBq.run_sql = some (.bigquery (some c))) ∧
    (stWPg.api_key = stW.api_key ∧ stWPg.org = stW.org ∧
      ∃ h db u pw pt c, pgEnvW.pg_connect h db u pw pt = .ok c ∧
        stWPg.run_sql = some (.postgres (some c))) :=
  ⟨C7_connectors_install_closure.1 stW snowEnvW "acct" "user" "pass" "db" none stWSnow rfl,
   C7_connectors_install_closure.2.1 stW bqEnvW "creds.json" (some "proj") stWBq rfl,
   C7_connectors_install_closure.2.2 stW pgEnvW (some "h") (some "db") (some "u")
      (some "pw") (some "5432") stWPg rfl⟩

/-- The concrete `ask` scenario in which only follow-up generation fails:
the state, network oracle and effect environment below drive every earlier
stage to success, and make `generate_followup_questions` raise (its
response's `result` value does not deserialize). -/
def c1State : GlobalState := ⟨some "key", some "org", some (.custom 0)⟩

def c1Df : Df := [["1"]]

def c1Fig : Fig := ⟨1⟩

def c1Net : Net := fun req =>
  match jsonLookup req.body "method" with
  | some (.str "generate_sql_from_question") =>
      .obj [("result", .obj [("raw_answer", .str "RA"), ("prefix", .str ""),
            ("postfix", .str ""), ("sql", .str "S1")])]
  | some (.str "generate_plotly_code") =>
      .obj [("result", .obj [("plotly_code", .str "PLOTLYCODE")])]
  | some (.str "generate_followup_questions") =>
      .obj [("result", .obj [])]
  | _ => .obj []

def c1Env : AskEnv :=
  { input_fn := fun _ => ""
    display_fn := fun _ => .ok ()
    run_sql_impl := fun _ _ => .ok (some c1Df)
    run_plotly := fun _ _ => .ok (some c1Fig)
    show_fn := fun _ => .ok () }

/-- C1 counterexample: with every stage up to and including chart rendering
succeeding (the rendered figure is `c1Fig`) and only follow-up-question
generation raising, `ask` returns `(sql, df, None, None)` — the figure
produced before the failing stage is not returned, contradicting the claim
that every result produced before the failing stage is still returned. -/
theorem C1_counterexample :
    (ask c1State c1Net c1Env (some "Q") false false true).1 =
      (some "S1", some c1Df, none, none) ∧
    get_plotly_figure c1Env (some "PLOTLYCODE") c1Df = .ok (some c1Fig) ∧
    (generate_followup_questions c1State c1Net "Q" c1Df).2 =
      .error (.typeError "QuestionStringList") := by
  exact ⟨rfl, rfl, rfl⟩

/-- C1 (amended): with all globals set, a failing `ask` pipeline stage
yields `None` for that stage and all later ones, and the results of earlier
stages are returned except that a failure of follow-up-question generation
also discards the already-rendered chart figure: SQL generation raising
gives `(None, None, None, None)`; `run_sql` raising gives
`(sql, None, None, None)`; chart-code generation or chart rendering raising
gives `(sql, df, None, None)`; and follow-up generation raising gives
`(sql, df, None, None)` as well, not `(sql, df, fig, None)`. -/
theorem C1_ask_partial_results :
    ∀ st net env q pr at_ gf rs, st.run_sql = some rs →
      (∀ e, (generate_sql st net q).2 = .error e →
        (ask st net env (some q) pr at_ gf).1 = (none, none, none, none)) ∧
      (∀ s e, (generate_sql st net q).2 = .ok s →
        env.run_sql_impl rs s = .error e →
        (ask st net env (some q) pr at_ gf).1 = (s, none, none, none)) ∧
      (∀ s df e, (generate_sql st net q).2 = .ok s →
        env.run_sql_impl rs s = .ok (some df) →
        askAddStep st net q s df at_ = .ok () →
        (generate_plotly_code st net (some q) s df).2 = .error e →
        (ask st net env (some q) pr at_ gf).1 = (s, some df, none, none)) ∧
      (∀ s df code e, (generate_sql st net q).2 = .ok s →
        env.run_sql_impl rs s = .ok (some df) →
        askAddStep st net q s df at_ = .ok () →
        (generate_plotly_code st net (some q) s df).2 = .ok code →
        get_plotly_figure env code df = .error e →
        (ask st net env (some q) pr at_ gf).1 = (s, some df, none, none)) ∧
      (∀ s df code figOpt e, (generate_sql st net q).2 = .ok s →
        env.run_sql_impl rs s = .ok (some df) →
        askAddStep st net q s df at_ = .ok () →
        (generate_plotly_code st net (some q) s df).2 = .ok code →
        get_plotly_figure env code df = .ok figOpt →
        askShowStep env figOpt pr = .ok () → gf = true →
        (generate_followup_questions st net q df).2 = .error e →
        (ask st net env (some q) pr at_ gf).1 = (s, some df, none, none)) := by
  intro st net env q pr at_ gf rs hrs
  refine ⟨?_, ?_, ?_, ?_, ?_⟩
  · intro e h1
    simp [ask, h1]
  · intro s e h1 h2
    simp [ask, hrs, h1, h2]
  · intro s df e h1 h2 h3 h4
    simp [ask, hrs, h1, h2, h3, h4]
  · intro s df code e h1 h2 h3 h4 h5
    simp [ask, hrs, h1, h2, h3, h4, h5]
  · intro s df code figOpt e h1 h2 h3 h4 h5 h6 h7 h8
    simp [ask, hrs, h1, h2, h3, h4, h5, h6, h7, h8]

theorem C1_witness :
    (generate_sql c1State c1Net "Q").2 = .ok (some "S1") ∧
    (ask c1State c1Net c1Env (some "Q") false false true).1 =
      (some "S1", some c1Df, none, none) :=
  ⟨rfl,
   (C1_ask_partial_results c1State c1Net c1Env "Q" false false true (.custom 0) rfl).2.2.2.2
      (some "S1") c1Df (some "PLOTLYCODE") (some c1Fig)
      (.typeError "QuestionStringList") rfl rfl rfl rfl rfl rfl rfl rfl⟩

/-- C4: the `ask` pipeline stages are entered in the fixed order
`generate query → execute query → generate chart → render chart →
generate follow-ups` (the entered-stage trace is always a prefix of that
order), and a later stage is never entered unless every earlier stage
completed — with execution additionally gated by `run_sql` being set and
follow-up generation by the `generate_followups` flag. -/
theorem C4_ask_stage_order :
    ∀ st net env q pr at_ gf,
      (∃ k, (ask st net env (some q) pr at_ gf).2 = canonicalStages.take k) ∧
      (Stage.runSqlStage ∈ (ask st net env (some q) pr at_ gf).2 →
        (∃ s, (generate_sql st net q).2 = .ok s) ∧ st.run_sql ≠ none) ∧
      (Stage.genChart ∈ (ask st net env (some q) pr at_ gf).2 →
        ∃ s rs df, (generate_sql st net q).2 = .ok s ∧ st.run_sql = some rs ∧
          env.run_sql_impl rs s = .ok (some df) ∧
          askAddStep st net q s df at_ = .ok ()) ∧
      (Stage.renderChart ∈ (ask st net env (some q) pr at_ gf).2 →
        ∃ s rs df code, (generate_sql st net q).2 = .ok s ∧ st.run_sql = some rs ∧
          env.run_sql_impl rs s = .ok (some df) ∧
          askAddStep st net q s df at_ = .ok () ∧
          (generate_plotly_code st net (some q) s df).2 = .ok code) ∧
      (Stage.genFollowups ∈ (ask st net env (some q) pr at_ gf).2 →
        gf = true ∧
        ∃ s rs df code figOpt, (generate_sql st net q).2 = .ok s ∧
          st.run_sql = some rs ∧
          env.run_sql_impl rs s = .ok (some df) ∧
          askAddStep st net q s df at_ = .ok () ∧
          (generate_plotly_code st net (some q) s df).2 = .ok code ∧
          get_plotly_figure env code df = .ok figOpt ∧
          askShowStep env figOpt pr = .ok ()) := by
  intro st net env q pr at_ gf
  cases hgen : (generate_sql st net q).2 with
  | error e =>
    have htr : (ask st net env (some q) pr at_ gf).2 = [.genSql] := by
      simp [ask, hgen]
    rw [htr]
    refine ⟨⟨1, rfl⟩, ?_, ?_, ?_, ?_⟩ <;> intro hmem <;> exact absurd hmem (by decide)
  | ok s =>
    cases hrs : st.run_sql with
    | none =>
      have htr : (ask st net env (some q) pr at_ gf).2 = [.genSql] := by
        simp [ask, hgen, hrs]
      rw [htr]
      refine ⟨⟨1, rfl⟩, ?_, ?_, ?_, ?_⟩ <;> intro hmem <;> exact absurd hmem (by decide)
    | some rs =>
      cases hrun : env.run_sql_impl rs s with
      | error e =>
        have htr : (ask st net env (some q) pr at_ gf).2 = [.genSql, .runSqlStage] := by
          simp [ask, hgen, hrs, hrun]
        rw [htr]
        refine ⟨⟨2, rfl⟩, fun _ => ⟨⟨s, rfl⟩, by simp⟩, ?_, ?_, ?_⟩ <;>
          intro hmem <;> exact absurd hmem (by decide)
      | ok dfOpt =>
        cases dfOpt with
        | none =>
          have htr : (ask st net env (some q) pr at_ gf).2 = [.genSql, .runSqlStage] := by
            simp [ask, hgen, hrs, hrun]
          rw [htr]
          refine ⟨⟨2, rfl⟩, fun _ => ⟨⟨s, rfl⟩, by simp⟩, ?_, ?_, ?_⟩ <;>
            intro hmem <;> exact absurd hmem (by decide)
        | some df =>
          cases hadd : askAddStep st net q s df at_ with
          | error e =>
            have htr : (ask st net env (some q) pr at_ gf).2 = [.genSql, .runSqlStage] := by
              simp [ask, hgen, hrs, hrun, hadd]
            rw [htr]
            refine ⟨⟨2, rfl⟩, fun _ => ⟨⟨s, rfl⟩, by simp⟩, ?_, ?_, ?_⟩ <;>
              intro hmem <;> exact absurd hmem (by decide)
          | ok u =>
            cases u
            cases hplot : (generate_plotly_code st net (some q) s df).2 with
            | error e =>
              have htr : (ask st net env (some q) pr at_ gf).2 =
                  [.genSql, .runSqlStage, .genChart] := by
                simp [ask, hgen, hrs, hrun, hadd, hplot]
              rw [htr]
              refine ⟨⟨3, rfl⟩, fun _ => ⟨⟨s, rfl⟩, by simp⟩,
                fun _ => ⟨s, rs, df, rfl, rfl, hrun, hadd⟩, ?_, ?_⟩ <;>
                intro hmem <;> exact absurd hmem (by decide)
            | ok code =>
              cases hfig : get_plotly_figure env code df with
              | error e =>
                have htr : (ask st net env (some q) pr at_ gf).2 =
                    [.genSql, .runSqlStage, .genChart, .renderChart] := by
                  simp [ask, hgen, hrs, hrun, hadd, hplot, hfig]
                rw [htr]
                refine ⟨⟨4, rfl⟩, fun _ => ⟨⟨s, rfl⟩, by simp⟩,
                  fun _ => ⟨s, rs, df, rfl, rfl, hrun, hadd⟩,
                  fun _ => ⟨s, rs, df, code, rfl, rfl, hrun, hadd, hplot⟩, ?_⟩
                intro hmem
                exact absurd hmem (by decide)
              | ok figOpt =>
                cases hshow : askShowStep env figOpt pr with
                | error e =>
                  have htr : (ask st net env (some q) pr at_ gf).2 =
                      [.genSql, .runSqlStage, .genChart, .renderChart] := by
                    simp [ask, hgen, hrs, hrun, hadd, hplot, hfig, hshow]
                  rw [htr]
                  refine ⟨⟨4, rfl⟩, fun _ => ⟨⟨s, rfl⟩, by simp⟩,
                    fun _ => ⟨s, rs, df, rfl, rfl, hrun, hadd⟩,
                    fun _ => ⟨s, rs, df, code, rfl, rfl, hrun, hadd, hplot⟩, ?_⟩
                  intro hmem
                  exact absurd hmem (by decide)
                | ok v =>
                  cases v
                  cases hgf : gf with
                  | false =>
                    have htr : (ask st net env (some q) pr at_ false).2 =
                        [.genSql, .runSqlStage, .genChart, .renderChart] := by
                      simp [ask, hgen, hrs, hrun, hadd, hplot, hfig, hshow, hgf]
                    rw [htr]
                    refine ⟨⟨4, rfl⟩, fun _ => ⟨⟨s, rfl⟩, by simp⟩,
                      fun _ => ⟨s, rs, df, rfl, rfl, hrun, hadd⟩,
                      fun _ => ⟨s, rs, df, code, rfl, rfl, hrun, hadd, hplot⟩, ?_⟩
                    intro hmem
                    exact absurd hmem (by decide)
                  | true =>
                    have htr : (ask st net env (some q) pr at_ true).2 =
                        canonicalStages := by
                      rcases hfq : (generate_followup_questions st net q df).2 with e | fq <;>
                        simp [ask, hgen, hrs, hrun, hadd, hplot, hfig, hshow, hgf, hfq,
                          canonicalStages]
                    rw [htr]
                    exact ⟨⟨5, rfl⟩, fun _ => ⟨⟨s, rfl⟩, by simp⟩,
                      fun _ => ⟨s, rs, df, rfl, rfl, hrun, hadd⟩,
                      fun _ => ⟨s, rs, df, code, rfl, rfl, hrun, hadd, hplot⟩,
                      fun _ => ⟨rfl, s, rs, df, code, figOpt, rfl, rfl, hrun, hadd,
                        hplot, hfig, hshow⟩⟩

theorem C4_witness :
    (∃ k, (ask c1State c1Net c1Env (some "Q") false false true).2 =
      canonicalStages.take k) ∧
    (Stage.genFollowups ∈ (ask c1State c1Net c1Env (some "Q") false false true).2 →
      true = true ∧
      ∃ s rs df code figOpt, (generate_sql c1State c1Net "Q").2 = .ok s ∧
        c1State.run_sql = some rs ∧
        c1Env.run_sql_impl rs s = .ok (some df) ∧
        askAddStep c1State c1Net "Q" s df false = .ok () ∧
        (generate_plotly_code c1State c1Net (some "Q") s df).2 = .ok code ∧
        get_plotly_figure c1Env code df = .ok figOpt ∧
        askShowStep c1Env figOpt false = .ok ()) :=
  ⟨(C4_ask_stage_order c1State c1Net c1Env "Q" false false true).1,
   (C4_ask_stage_order c1State c1Net c1Env "Q" false false true).2.2.2.2⟩

end Vanna
